import Mathlib

/-!
# Social Contact Widget Generator — verification of the core

Shallow embedding of the repository's core: the per-platform contact-id
validators and the widget code generator (`generateWidgetCode` with its
helpers `getPlatformLink`, `getAnimationCss`, the HTML/CSS/JS templates),
together with the configuration edit `handlePlatformFieldChange`.

JavaScript strings are modelled as Lean `String`; optional fields as
`Option`; JS truthiness of a string (`if (s)` / `s || d`) is explicit:
a string is truthy iff it is defined and non-empty.  The JS regex
classes `\s` and `\d` are modelled character-by-character.
-/

set_option maxRecDepth 8192

/-! ## Data model (`types.ts`) -/

inductive Platform | messenger | whatsapp | telegram | phone | email
  deriving DecidableEq, Repr

inductive Position | bottomRight | bottomLeft
  deriving DecidableEq, Repr

inductive ButtonAnimation | none | pulse | bounce | fade | shake
  deriving DecidableEq, Repr

inductive WidgetShape | rounded | square
  deriving DecidableEq, Repr

inductive MenuSpacing | compact | default | relaxed
  deriving DecidableEq, Repr

inductive EmailLinkType | mailto | url
  deriving DecidableEq, Repr

structure PlatformConfig where
  enabled : Bool
  contactId : String
  predefinedMessage : Option String := Option.none
  emailLinkType : Option EmailLinkType := Option.none
  customIconSvg : Option String := Option.none
  color : Option String := Option.none
  deriving DecidableEq, Repr

structure WidgetConfig where
  platforms : Platform → PlatformConfig
  headerText : String
  headerBgColor : String
  headerTextColor : String
  mainButtonColor : String
  mainIconColor : String
  position : Position
  buttonAnimation : ButtonAnimation
  widgetShape : WidgetShape
  menuSpacing : MenuSpacing

/-! ## JavaScript string primitives -/

/-- The JavaScript regex class `\s` (also the character set trimmed by
`String.prototype.trim`): ASCII whitespace, NBSP, the Unicode space
separators, line/paragraph separators and the BOM. -/
def isJsWhitespace (c : Char) : Bool :=
  c == ' ' || c == '\t' || c == '\n' || c == '\x0b' || c == '\x0c' || c == '\r' ||
  c == ' ' || c == ' ' || (0x2000 ≤ c.toNat && c.toNat ≤ 0x200A) ||
  c == ' ' || c == ' ' || c == ' ' || c == ' ' ||
  c == '　' || c == '﻿'

/-- JavaScript `value.trim()`: strip leading and trailing `\s` characters. -/
def jsTrim (s : String) : String :=
  String.mk (((s.data.dropWhile isJsWhitespace).reverse.dropWhile isJsWhitespace).reverse)

/-! ## Validators (`Configurator`, `validators` record) -/

/-- The test `/^\d+$/.test s`: a non-empty string of ASCII digits. -/
def regexDigits (s : String) : Bool :=
  !s.isEmpty && s.data.all Char.isDigit

/-- The test `/^[a-zA-Z0-9_]{5,32}$/.test s`. -/
def regexTelegramUsername (s : String) : Bool :=
  s.data.all (fun c => c.isAlpha || c.isDigit || c == '_') &&
    decide (5 ≤ s.length) && decide (s.length ≤ 32)

/-- Characters that `.` cannot match in a JS regex without the `s` flag. -/
def isRegexNewline (c : Char) : Bool :=
  c == '\n' || c == '\r' || c == ' ' || c == ' '

/-- `\d{7}` matches at the current position. -/
def sevenDigitsHere (l : List Char) : Bool :=
  decide ((l.take 7).length = 7) && (l.take 7).all Char.isDigit

/-- The lookahead `(?=.*\d{7})` anchored at the start: a run of seven
digits is found after zero or more non-newline characters. -/
def digitRunLookahead : List Char → Bool
  | [] => false
  | c :: rest => sevenDigitsHere (c :: rest) || (!isRegexNewline c && digitRunLookahead rest)

/-- The test `/^(?=.*\d{7})[\d\s()+-]+$/.test s`. -/
def regexPhone (s : String) : Bool :=
  !s.isEmpty &&
  s.data.all (fun c =>
    c.isDigit || isJsWhitespace c || c == '(' || c == ')' || c == '+' || c == '-') &&
  digitRunLookahead s.data

/-- The test `/^[^\s@]+@[^\s@]+\.[^\s@]+$/.test s`.  The string must split
at a unique `@` into a non-empty left part and a right part that contains
a `.` with at least one character on each side; no whitespace anywhere
(`@` is excluded from both sides by the split, `.` is allowed in them). -/
def regexEmail (s : String) : Bool :=
  match s.data.splitOn '@' with
  | [a, r] =>
    !a.isEmpty && a.all (fun c => !isJsWhitespace c) &&
    !r.isEmpty && r.all (fun c => !isJsWhitespace c) &&
    ((r.drop 1).dropLast.contains '.')
  | _ => false

/-- `pre` is a prefix of `s` (JavaScript `s.startsWith(pre)`). -/
def strStartsWith (s pre : String) : Bool :=
  pre.data.isPrefixOf s.data

/-- ASCII lower-casing, as far as the scheme test observes JavaScript's
`toLowerCase`. -/
def jsToLower (s : String) : String :=
  String.mk (s.data.map Char.toLower)

/-- The case-insensitive test `/^https?:\/\//i.test s`. -/
def startsWithHttpScheme (s : String) : Bool :=
  strStartsWith (jsToLower s) "http://" || strStartsWith (jsToLower s) "https://"

/-- Models the WHATWG `URL` constructor — a browser builtin, not
repository code — to the extent the url validator observes it: for an
input with an `http(s)://` scheme it yields the hostname (the authority
after the last `@`, before any `:` port or `/?#` terminator), and fails
(the constructor throws) when the hostname is empty or contains a
character forbidden in hosts. -/
def urlHostname (s : String) : Option String :=
  let rest := if strStartsWith (jsToLower s) "https://" then s.data.drop 8 else s.data.drop 7
  let authority := rest.takeWhile (fun c => !(c == '/' || c == '?' || c == '#'))
  let hostPort := (authority.splitOn '@').getLastD []
  let host := hostPort.takeWhile (fun c => !(c == ':'))
  if host.isEmpty || host.any (fun c =>
      c == ' ' || c == '%' || c == '<' || c == '>' || c == '[' || c == ']' ||
      c == '^' || c == '|' || c == '\\' || c.toNat < 0x21) then
    Option.none
  else Option.some (String.mk host)

def validators.whatsapp (value : String) : Option String :=
  let trimmedValue := jsTrim value
  if trimmedValue = "" then some "WhatsApp number is required."
  else if !regexDigits trimmedValue then
    some "Please enter digits only, without \"+\" or spaces."
  else if trimmedValue.length < 7 ∨ trimmedValue.length > 15 then
    some "Number must be between 7 and 15 digits."
  else none

def validators.messenger (value : String) : Option String :=
  let trimmedValue := jsTrim value
  if trimmedValue = "" then some "Page ID or username is required."
  else if trimmedValue.data.any isJsWhitespace then some "Cannot contain spaces."
  else none

def validators.telegram (value : String) : Option String :=
  let trimmedValue := jsTrim value
  if trimmedValue = "" then some "Telegram username is required."
  else if !regexTelegramUsername trimmedValue then
    some "Must be 5-32 letters, numbers, or underscores."
  else none

def validators.phone (value : String) : Option String :=
  let trimmedValue := jsTrim value
  if trimmedValue = "" then some "Phone number is required."
  else if !regexPhone trimmedValue then some "Please enter a valid phone number."
  else none

def validators.email (value : String) : Option String :=
  let trimmedValue := jsTrim value
  if trimmedValue = "" then some "Email address is required."
  else if regexEmail trimmedValue then none
  else some "Please enter a valid email address."

def validators.url (value : String) : Option String :=
  let trimmedValue := jsTrim value
  if trimmedValue = "" then some "URL is required."
  else if strStartsWith trimmedValue "/" || strStartsWith trimmedValue "#" then none
  else
    let testUrl := if startsWithHttpScheme trimmedValue then trimmedValue
                   else "https://" ++ trimmedValue
    match urlHostname testUrl with
    | Option.some hostname =>
      if hostname = "" ∨ ¬(hostname.data.contains '.') then
        some "Please enter a valid URL (e.g., https://example.com) or path (e.g., /contact)."
      else none
    | Option.none =>
      some "Please enter a valid URL (e.g., https://example.com) or path (e.g., /contact)."

/-- `getValidationError` from the configurator: dispatch on the platform,
with the email platform selecting the email or url rule by link type. -/
def getValidationError (platformId : Platform) (pConfig : PlatformConfig) : Option String :=
  let contactId := pConfig.contactId
  match platformId with
  | Platform.whatsapp => validators.whatsapp contactId
  | Platform.messenger => validators.messenger contactId
  | Platform.telegram => validators.telegram contactId
  | Platform.phone => validators.phone contactId
  | Platform.email =>
    if pConfig.emailLinkType = some EmailLinkType.mailto then validators.email contactId
    else validators.url contactId

/-! ## Claims C4, C5, C6 -/

/-- C4: the whatsapp validator accepts exactly the strings whose trim is a
non-empty run of 7 to 15 ASCII digits; `"+1 555"` is rejected and
`"15551234567"` accepted. -/
theorem whatsapp_validator_correct :
    (∀ s : String, validators.whatsapp s = none ↔
      (jsTrim s ≠ "" ∧ (jsTrim s).data.all Char.isDigit = true ∧
        7 ≤ (jsTrim s).length ∧ (jsTrim s).length ≤ 15)) ∧
    (validators.whatsapp "+1 555").isSome = true ∧
    validators.whatsapp "15551234567" = none := by
  refine ⟨fun s => ?_, by decide, by decide⟩
  unfold validators.whatsapp regexDigits
  by_cases h1 : jsTrim s = ""
  · simp [h1]
  · have hie : (jsTrim s).isEmpty = false := by
      cases hb : (jsTrim s).isEmpty
      · rfl
      · exact absurd ((String.isEmpty_iff _).mp hb) h1
    rw [if_neg h1]
    by_cases h2 : (jsTrim s).data.all Char.isDigit = true
    · by_cases h3 : (jsTrim s).length < 7 ∨ (jsTrim s).length > 15
      · simp [hie, h2, h3, h1]
        omega
      · simp [hie, h2, h3, h1]
        omega
    · simp [hie, h2, h1]

/-- C4 witness: the characterization applied at `"15551234567"`. -/
theorem whatsapp_validator_correct_witness :
    validators.whatsapp "15551234567" = none :=
  (whatsapp_validator_correct.1 "15551234567").mpr
    ⟨by decide, by decide, by decide, by decide⟩

/-- C5: the telegram validator accepts exactly the strings whose trim
consists of word characters `[a-zA-Z0-9_]` with length in `[5, 32]`;
`"ab"` is rejected and `"my_channel1"` accepted. -/
theorem telegram_validator_correct :
    (∀ s : String, validators.telegram s = none ↔
      ((jsTrim s).data.all (fun c => c.isAlpha || c.isDigit || c == '_') = true ∧
        5 ≤ (jsTrim s).length ∧ (jsTrim s).length ≤ 32)) ∧
    (validators.telegram "ab").isSome = true ∧
    validators.telegram "my_channel1" = none := by
  refine ⟨fun s => ?_, by decide, by decide⟩
  unfold validators.telegram regexTelegramUsername
  by_cases h1 : jsTrim s = ""
  · have hlen : (jsTrim s).length = 0 := by rw [h1]; rfl
    simp [h1, hlen]
  · rw [if_neg h1]
    by_cases h2 : (jsTrim s).data.all (fun c => c.isAlpha || c.isDigit || c == '_') = true
    · by_cases h3 : 5 ≤ (jsTrim s).length
      · by_cases h4 : (jsTrim s).length ≤ 32
        · simp [h2, h3, h4]
        · simp [h2, h3, h4]
      · simp [h2, h3]
    · simp [h2]

/-- C5 witness: the characterization applied at `"my_channel1"`. -/
theorem telegram_validator_correct_witness :
    validators.telegram "my_channel1" = none :=
  (telegram_validator_correct.1 "my_channel1").mpr
    ⟨by decide, by decide, by decide⟩

/-- C6: for every platform, a contact id that trims to the empty string
(the empty string itself or whitespace-only input) is rejected with an
error message.  Totality — the validator never throws — holds by
construction: every validator above is a total Lean function. -/
theorem validator_blank_contactId_rejected (p : Platform) (pc : PlatformConfig)
    (h : jsTrim pc.contactId = "") : (getValidationError p pc).isSome = true := by
  cases p <;>
    simp [getValidationError, validators.whatsapp, validators.messenger,
      validators.telegram, validators.phone, validators.email, validators.url,
      h, apply_ite]

/-- C6 witness: a whitespace-only whatsapp contact id and an empty email
contact id are both rejected. -/
theorem validator_blank_contactId_rejected_witness :
    jsTrim " " = "" ∧
    (getValidationError Platform.email { enabled := true, contactId := " " }).isSome = true :=
  ⟨by decide,
    validator_blank_contactId_rejected Platform.email
      { enabled := true, contactId := " " } (by decide)⟩

/-! ## Link generation (`CodeOutput`, `getPlatformLink`) -/

/-- One hex digit, upper case, as produced by `encodeURIComponent`. -/
def hexDigitChar (n : Nat) : Char :=
  if n < 10 then Char.ofNat ('0'.toNat + n) else Char.ofNat ('A'.toNat + (n - 10))

/-- UTF-8 encoding of a scalar value, as a list of byte values. -/
def utf8Bytes (c : Char) : List Nat :=
  let n := c.toNat
  if n < 0x80 then [n]
  else if n < 0x800 then [0xC0 + n / 0x40, 0x80 + n % 0x40]
  else if n < 0x10000 then [0xE0 + n / 0x1000, 0x80 + (n / 0x40) % 0x40, 0x80 + n % 0x40]
  else [0xF0 + n / 0x40000, 0x80 + (n / 0x1000) % 0x40, 0x80 + (n / 0x40) % 0x40, 0x80 + n % 0x40]

/-- The characters `encodeURIComponent` leaves unescaped:
ASCII alphanumerics and `-_.!~*'()`. -/
def isUriUnreserved (c : Char) : Bool :=
  c.isAlpha || c.isDigit || c == '-' || c == '_' || c == '.' || c == '!' ||
  c == '~' || c == '*' || c == '\x27' || c == '(' || c == ')'

def percentEncodeByte (b : Nat) : String :=
  String.mk ['%', hexDigitChar (b / 16), hexDigitChar (b % 16)]

/-- JavaScript `encodeURIComponent`: unreserved characters are kept,
every other character is percent-encoded byte by byte (UTF-8). -/
def encodeURIComponent (s : String) : String :=
  String.join (s.data.map (fun c =>
    if isUriUnreserved c then String.singleton c
    else String.join ((utf8Bytes c).map percentEncodeByte)))

/-- JavaScript `s.replace(/\s+/g, '')`: replacing every maximal run of
whitespace with the empty string discards exactly the whitespace
characters and keeps the rest in order. -/
def stripJsWhitespace (s : String) : String :=
  String.mk (s.data.filter (fun c => !isJsWhitespace c))

/-- `getPlatformLink` from `generateWidgetCode`.  The JS truthiness test
`if (predefinedMessage)` succeeds iff the field is defined and non-empty.
The source's `default` arm (returning `'#'`) is unreachable here because
`Platform` is the closed five-element set. -/
def getPlatformLink (platform : Platform) (platformConfig : PlatformConfig) : String :=
  let contactId := platformConfig.contactId
  match platform with
  | Platform.whatsapp =>
    match platformConfig.predefinedMessage with
    | Option.some predefinedMessage =>
      if predefinedMessage = "" then "https://wa.me/" ++ contactId
      else "https://wa.me/" ++ contactId ++ "?text=" ++ encodeURIComponent predefinedMessage
    | Option.none => "https://wa.me/" ++ contactId
  | Platform.messenger => "https://m.me/" ++ contactId
  | Platform.telegram => "https://t.me/" ++ contactId
  | Platform.phone => "tel:" ++ stripJsWhitespace contactId
  | Platform.email =>
    if platformConfig.emailLinkType = some EmailLinkType.mailto then "mailto:" ++ contactId
    else contactId

/-! ## Configuration edits (`Configurator`, `handlePlatformFieldChange`) -/

/-- One field-level edit of a `PlatformConfig` (the `field`/`value` pair
passed to `handlePlatformFieldChange`; the UI always passes a concrete
value of the field's type). -/
inductive FieldEdit
  | enabled (b : Bool)
  | contactId (s : String)
  | predefinedMessage (s : String)
  | emailLinkType (t : EmailLinkType)
  | customIconSvg (s : String)
  | color (s : String)
  deriving DecidableEq, Repr

/-- `{ ...prev, [field]: value }` for a single platform configuration. -/
def applyFieldEdit (pc : PlatformConfig) : FieldEdit → PlatformConfig
  | FieldEdit.enabled b => { pc with enabled := b }
  | FieldEdit.contactId s => { pc with contactId := s }
  | FieldEdit.predefinedMessage s => { pc with predefinedMessage := some s }
  | FieldEdit.emailLinkType t => { pc with emailLinkType := some t }
  | FieldEdit.customIconSvg s => { pc with customIconSvg := some s }
  | FieldEdit.color s => { pc with color := some s }

/-- The test `field === 'emailLinkType'`. -/
def isEmailTypeEdit : FieldEdit → Bool
  | FieldEdit.emailLinkType _ => true
  | _ => false

/-- `handlePlatformFieldChange`: update one field of one platform's
configuration, additionally clearing `contactId` when the email
platform's link type is switched. -/
def handlePlatformFieldChange (prevConfig : WidgetConfig) (platformId : Platform)
    (edit : FieldEdit) : WidgetConfig :=
  let updated := applyFieldEdit (prevConfig.platforms platformId) edit
  let updatedPlatformConfig :=
    if platformId = Platform.email ∧ isEmailTypeEdit edit = true then
      { updated with contactId := "" }
    else updated
  { prevConfig with
    platforms := fun q => if q = platformId then updatedPlatformConfig else prevConfig.platforms q }

/-- `DEFAULT_CONFIG` from the constants module. -/
def DEFAULT_CONFIG : WidgetConfig where
  platforms := fun p =>
    match p with
    | Platform.whatsapp =>
      { enabled := true, contactId := "15551234567",
        predefinedMessage := some "Hello! I have a question about your services." }
    | Platform.messenger => { enabled := true, contactId := "Meta" }
    | Platform.telegram => { enabled := true, contactId := "mychannel" }
    | Platform.phone => { enabled := false, contactId := "15551234567" }
    | Platform.email =>
      { enabled := false, contactId := "hello@example.com",
        emailLinkType := some EmailLinkType.mailto }
  headerText := "Contact Us"
  headerBgColor := "#128C7E"
  headerTextColor := "#FFFFFF"
  mainButtonColor := "#25D366"
  mainIconColor := "#FFFFFF"
  position := Position.bottomRight
  buttonAnimation := ButtonAnimation.pulse
  widgetShape := WidgetShape.rounded
  menuSpacing := MenuSpacing.default

/-! ## Claims C2, C3, C10, C7 -/

/-- C2: the whatsapp link is `https://wa.me/<contactId>`, with
`?text=<url-encoded message>` appended exactly when a pre-filled message
is set and non-empty; at contact id `"15551234567"` and message `"Hi"`
the link is `https://wa.me/15551234567?text=Hi`. -/
theorem whatsapp_link_correct :
    (∀ (pc : PlatformConfig) (m : String), pc.predefinedMessage = some m → m ≠ "" →
      getPlatformLink Platform.whatsapp pc =
        "https://wa.me/" ++ pc.contactId ++ "?text=" ++ encodeURIComponent m) ∧
    (∀ pc : PlatformConfig,
      pc.predefinedMessage = Option.none ∨ pc.predefinedMessage = some "" →
      getPlatformLink Platform.whatsapp pc = "https://wa.me/" ++ pc.contactId) ∧
    getPlatformLink Platform.whatsapp
      { enabled := true, contactId := "15551234567", predefinedMessage := some "Hi" } =
      "https://wa.me/15551234567?text=Hi" := by
  refine ⟨?_, ?_, by decide⟩
  · intro pc m h hm
    simp [getPlatformLink, h, hm]
  · intro pc h
    cases h with
    | inl h => simp [getPlatformLink, h]
    | inr h => simp [getPlatformLink, h]

/-- C2 witness: the appended form at the concrete configuration. -/
theorem whatsapp_link_correct_witness :
    getPlatformLink Platform.whatsapp
      { enabled := true, contactId := "15551234567", predefinedMessage := some "Hi" } =
      "https://wa.me/" ++ "15551234567" ++ "?text=" ++ encodeURIComponent "Hi" :=
  whatsapp_link_correct.1
    { enabled := true, contactId := "15551234567", predefinedMessage := some "Hi" }
    "Hi" rfl (by decide)

/-- C3: the phone link is `tel:` followed by the contact id with every
whitespace character removed and all other characters kept in order; at
`"+1 (555) 123-4567"` the link is `tel:+1(555)123-4567`. -/
theorem phone_link_strips_whitespace :
    (∀ pc : PlatformConfig, getPlatformLink Platform.phone pc =
      "tel:" ++ String.mk (pc.contactId.data.filter (fun c => !isJsWhitespace c))) ∧
    getPlatformLink Platform.phone { enabled := true, contactId := "+1 (555) 123-4567" } =
      "tel:+1(555)123-4567" :=
  ⟨fun _ => rfl, by decide⟩

/-- C10: the email platform uses the url validator and the verbatim link
whenever `emailLinkType` is anything but `'mailto'` (including absent);
the email-address validator and the `mailto:` link are used exactly when
`emailLinkType = 'mailto'`. -/
theorem email_link_type_dispatch :
    (∀ pc : PlatformConfig, pc.emailLinkType ≠ some EmailLinkType.mailto →
      getValidationError Platform.email pc = validators.url pc.contactId ∧
      getPlatformLink Platform.email pc = pc.contactId) ∧
    (∀ pc : PlatformConfig, pc.emailLinkType = some EmailLinkType.mailto →
      getValidationError Platform.email pc = validators.email pc.contactId ∧
      getPlatformLink Platform.email pc = "mailto:" ++ pc.contactId) := by
  constructor
  · intro pc h
    exact ⟨by simp [getValidationError, h], by simp [getPlatformLink, h]⟩
  · intro pc h
    exact ⟨by simp [getValidationError, h], by simp [getPlatformLink, h]⟩

/-- C10 witness: with the optional link type absent, the url rule and the
verbatim link are selected. -/
theorem email_link_type_dispatch_witness :
    getValidationError Platform.email { enabled := true, contactId := "/contact" } =
      validators.url "/contact" ∧
    getPlatformLink Platform.email { enabled := true, contactId := "/contact" } = "/contact" :=
  email_link_type_dispatch.1 { enabled := true, contactId := "/contact" } (by decide)

/-- C7: switching the email platform's link type clears its contact id
and changes nothing else: the email entry's other fields, every other
platform's configuration and every top-level field are preserved. -/
theorem email_link_type_edit_resets_contactId (cfg : WidgetConfig) (t : EmailLinkType) :
    (((handlePlatformFieldChange cfg Platform.email (FieldEdit.emailLinkType t)).platforms
        Platform.email).contactId = "" ∧
      ((handlePlatformFieldChange cfg Platform.email (FieldEdit.emailLinkType t)).platforms
        Platform.email).emailLinkType = some t ∧
      ((handlePlatformFieldChange cfg Platform.email (FieldEdit.emailLinkType t)).platforms
        Platform.email).enabled = (cfg.platforms Platform.email).enabled ∧
      ((handlePlatformFieldChange cfg Platform.email (FieldEdit.emailLinkType t)).platforms
        Platform.email).predefinedMessage = (cfg.platforms Platform.email).predefinedMessage ∧
      ((handlePlatformFieldChange cfg Platform.email (FieldEdit.emailLinkType t)).platforms
        Platform.email).customIconSvg = (cfg.platforms Platform.email).customIconSvg ∧
      ((handlePlatformFieldChange cfg Platform.email (FieldEdit.emailLinkType t)).platforms
        Platform.email).color = (cfg.platforms Platform.email).color) ∧
    (∀ q : Platform, q ≠ Platform.email →
      (handlePlatformFieldChange cfg Platform.email (FieldEdit.emailLinkType t)).platforms q =
        cfg.platforms q) ∧
    ((handlePlatformFieldChange cfg Platform.email (FieldEdit.emailLinkType t)).headerText =
        cfg.headerText ∧
      (handlePlatformFieldChange cfg Platform.email (FieldEdit.emailLinkType t)).headerBgColor =
        cfg.headerBgColor ∧
      (handlePlatformFieldChange cfg Platform.email (FieldEdit.emailLinkType t)).headerTextColor =
        cfg.headerTextColor ∧
      (handlePlatformFieldChange cfg Platform.email (FieldEdit.emailLinkType t)).mainButtonColor =
        cfg.mainButtonColor ∧
      (handlePlatformFieldChange cfg Platform.email (FieldEdit.emailLinkType t)).mainIconColor =
        cfg.mainIconColor ∧
      (handlePlatformFieldChange cfg Platform.email (FieldEdit.emailLinkType t)).position =
        cfg.position ∧
      (handlePlatformFieldChange cfg Platform.email (FieldEdit.emailLinkType t)).buttonAnimation =
        cfg.buttonAnimation ∧
      (handlePlatformFieldChange cfg Platform.email (FieldEdit.emailLinkType t)).widgetShape =
        cfg.widgetShape ∧
      (handlePlatformFieldChange cfg Platform.email (FieldEdit.emailLinkType t)).menuSpacing =
        cfg.menuSpacing) := by
  refine ⟨⟨?_, ?_, ?_, ?_, ?_, ?_⟩,
    fun q hq => by simp [handlePlatformFieldChange, hq],
    ⟨rfl, rfl, rfl, rfl, rfl, rfl, rfl, rfl, rfl⟩⟩ <;>
  simp [handlePlatformFieldChange, applyFieldEdit, isEmailTypeEdit]

/-- C7 witness: the edit applied to the default configuration, with the
messenger platform untouched. -/
theorem email_link_type_edit_resets_contactId_witness :
    ((handlePlatformFieldChange DEFAULT_CONFIG Platform.email
        (FieldEdit.emailLinkType EmailLinkType.url)).platforms Platform.email).contactId = "" ∧
    (handlePlatformFieldChange DEFAULT_CONFIG Platform.email
        (FieldEdit.emailLinkType EmailLinkType.url)).platforms Platform.messenger =
      DEFAULT_CONFIG.platforms Platform.messenger :=
  ⟨(email_link_type_edit_resets_contactId DEFAULT_CONFIG EmailLinkType.url).1.1,
    (email_link_type_edit_resets_contactId DEFAULT_CONFIG EmailLinkType.url).2.1
      Platform.messenger (by decide)⟩

/-! ## The generator templates (`generateWidgetCode`)

The HTML, CSS and JS template literals of the source, split at their
interpolation points into literal chunks.  `htmlA1/htmlA2` and
`htmlF1/htmlF2` split two of the chunks at the header and floating-button
class markers. -/

def htmlA : String := "\n<!-- Social Contact Widget Container -->\n<div class=\"scw-widget-container\" id=\"scw-widget\">\n  <!-- Widget Menu -->\n  <div class=\"scw-widget-menu\" role=\"dialog\" aria-modal=\"true\" aria-labelledby=\"scw-header-text\" aria-hidden=\"true\">\n    <div class=\"scw-header\" style=\"background-color: "

def htmlB : String := "; color: "

def htmlC : String := ";\">\n      <span class=\"scw-header-text\" id=\"scw-header-text\">"

def htmlD : String := "</span>\n      <button class=\"scw-close-button\" aria-label=\"Close menu\">\n        <svg xmlns=\"http://www.w3.org/2000/svg\" width=\"20\" height=\"20\" viewBox=\"0 0 24 24\" fill=\"none\" stroke=\""

def htmlE : String := "\" stroke-width=\"2\" stroke-linecap=\"round\" stroke-linejoin=\"round\"><line x1=\"18\" y1=\"6\" x2=\"6\" y2=\"18\"></line><line x1=\"6\" y1=\"6\" x2=\"18\" y2=\"18\"></line></svg>\n      </button>\n    </div>\n    <div class=\"scw-platform-list\">\n      "

def htmlF : String := "\n    </div>\n  </div>\n  <!-- Floating Action Button -->\n  <button class=\"scw-fab\" aria-label=\"Open contact menu\" aria-haspopup=\"dialog\" aria-expanded=\"false\">\n    <div class=\"scw-fab-icon-open\">\n      <svg xmlns=\"http://www.w3.org/2000/svg\" width=\"32\" height=\"32\" viewBox=\"0 0 24 24\" fill=\"none\" stroke=\""

def htmlG : String := "\" stroke-width=\"2\" stroke-linecap=\"round\" stroke-linejoin=\"round\"><path d=\"M21 15a2 2 0 0 1-2 2H7l-4 4V5a2 2 0 0 1 2-2h14a2 2 0 0 1 2 2z\"></path></svg>\n    </div>\n    <div class=\"scw-fab-icon-close\">\n      <svg xmlns=\"http://www.w3.org/2000/svg\" width=\"32\" height=\"32\" viewBox=\"0 0 24 24\" fill=\"none\" stroke=\""

def htmlH : String := "\" stroke-width=\"2\" stroke-linecap=\"round\" stroke-linejoin=\"round\"><line x1=\"18\" y1=\"6\" x2=\"6\" y2=\"18\"></line><line x1=\"6\" y1=\"6\" x2=\"18\" y2=\"18\"></line></svg>\n    </div>\n  </button>\n</div>"

def itemA : String := "\n      <a href=\""

def itemB : String := "\" target=\"_blank\" rel=\"noopener noreferrer\" class=\"scw-platform-item\">\n        <div class=\"scw-platform-icon\" style=\"background-color: "

def itemC : String := ";\">\n          "

def itemD : String := "\n        </div>\n        <div class=\"scw-platform-info\">\n          <p class=\"scw-platform-name\">"

def itemE : String := "</p>\n          <p class=\"scw-platform-cta\">"

def itemF : String := "</p>\n        </div>\n        <svg class=\"scw-arrow-icon\" xmlns=\"http://www.w3.org/2000/svg\" width=\"20\" height=\"20\" viewBox=\"0 0 24 24\" fill=\"none\" stroke=\"currentColor\" stroke-width=\"2\" stroke-linecap=\"round\" stroke-linejoin=\"round\"><polyline points=\"9 18 15 12 9 6\"></polyline></svg>\n      </a>"

def cssA : String := "\n<style>\n  .scw-widget-container \x7b\n    position: fixed;\n    z-index: 9999;\n    font-family: -apple-system, BlinkMacSystemFont, \"Segoe UI\", Roboto, \"Helvetica Neue\", Arial, sans-serif;\n    "

def cssB : String := "\n  \x7d\n  .scw-widget-menu \x7b\n    width: 300px;\n    margin-bottom: 1rem;\n    background-color: #fff;\n    border-radius: 8px;\n    box-shadow: 0 10px 20px rgba(0,0,0,0.1), 0 3px 6px rgba(0,0,0,0.1);\n    overflow: hidden;\n    transform: scale(0.95);\n    opacity: 0;\n    visibility: hidden;\n    transition: transform 0.2s ease-out, opacity 0.2s ease-out, visibility 0s 0.2s;\n    position: absolute;\n    bottom: 100%;\n    transform-origin: "

def cssC : String := ";\n    "

def cssD : String := "\n  \x7d\n  .scw-widget-container.open .scw-widget-menu \x7b\n    transform: scale(1);\n    opacity: 1;\n    visibility: visible;\n    transition: transform 0.2s ease-out, opacity 0.2s ease-out;\n  \x7d\n  .scw-header \x7b\n    padding: 1rem;\n    display: flex;\n    justify-content: space-between;\n    align-items: center;\n  \x7d\n  .scw-header-text \x7b\n    font-weight: bold;\n    font-size: 1.1rem;\n  \x7d\n  .scw-close-button \x7b\n    background: none;\n    border: none;\n    cursor: pointer;\n    padding: 0;\n    opacity: 0.8;\n    transition: opacity 0.2s;\n  \x7d\n  .scw-close-button:hover \x7b opacity: 1; \x7d\n  .scw-platform-list \x7b\n    padding: 0.5rem;\n    display: flex;\n    flex-direction: column;\n    gap: "

def cssE : String := ";\n  \x7d\n  .scw-platform-item \x7b\n    display: flex;\n    align-items: center;\n    gap: 1rem;\n    padding: 0.75rem;\n    border-radius: 8px;\n    text-decoration: none;\n    color: inherit;\n    transition: background-color 0.2s;\n  \x7d\n  .scw-platform-item:hover \x7b background-color: #f3f4f6; \x7d\n  .scw-platform-icon \x7b\n    width: 40px;\n    height: 40px;\n    border-radius: "

def cssF : String := ";\n    display: flex;\n    align-items: center;\n    justify-content: center;\n    flex-shrink: 0;\n    color: #fff; /* For custom SVGs using currentColor */\n  \x7d\n  .scw-platform-icon svg \x7b\n    width: 24px;\n    height: 24px;\n  \x7d\n  .scw-platform-info \x7b flex-grow: 1; \x7d\n  .scw-platform-name \x7b font-weight: 600; font-size: 0.95rem; color: #111827; \x7d\n  .scw-platform-cta \x7b font-size: 0.85rem; color: #6b7280; \x7d\n  .scw-arrow-icon \x7b color: #9ca3af; margin-left: auto; \x7d\n  .scw-fab \x7b\n    width: 64px;\n    height: 64px;\n    background-color: "

def cssG : String := ";\n    border-radius: "

def cssH : String := ";\n    border: none;\n    cursor: pointer;\n    display: flex;\n    align-items: center;\n    justify-content: center;\n    box-shadow: 0 4px 12px rgba(0,0,0,0.2);\n    transition: transform 0.2s ease-in-out;\n    position: relative;\n    overflow: hidden;\n  \x7d\n  .scw-fab:hover \x7b transform: scale(1.05); \x7d\n  .scw-fab-icon-open, .scw-fab-icon-close \x7b\n    position: absolute;\n    transition: transform 0.3s ease, opacity 0.3s ease;\n  \x7d\n  .scw-fab-icon-open \x7b transform: rotate(0) scale(1); opacity: 1; \x7d\n  .scw-widget-container.open .scw-fab-icon-open \x7b transform: rotate(-90deg) scale(0); opacity: 0; \x7d\n  .scw-fab-icon-close \x7b transform: rotate(90deg) scale(0); opacity: 0; \x7d\n  .scw-widget-container.open .scw-fab-icon-close \x7b transform: rotate(0) scale(1); opacity: 1; \x7d\n  "

def cssI : String := "\n</style>"

def jsBlock : String := "\n<script>\n  document.addEventListener(\x27DOMContentLoaded\x27, function() \x7b\n    const widgetContainer = document.getElementById(\x27scw-widget\x27);\n    if (!widgetContainer) return;\n\n    const fab = widgetContainer.querySelector(\x27.scw-fab\x27);\n    const menu = widgetContainer.querySelector(\x27.scw-widget-menu\x27);\n    const closeButton = widgetContainer.querySelector(\x27.scw-close-button\x27);\n\n    if (!fab || !menu || !closeButton) return;\n\n    const focusableElements = menu.querySelectorAll(\x27a[href], button\x27);\n    const firstFocusableElement = focusableElements[0];\n    const lastFocusableElement = focusableElements[focusableElements.length - 1];\n\n    const openWidget = () => \x7b\n      widgetContainer.classList.add(\x27open\x27);\n      fab.setAttribute(\x27aria-expanded\x27, \x27true\x27);\n      menu.setAttribute(\x27aria-hidden\x27, \x27false\x27);\n      if (firstFocusableElement) \x7b\n        firstFocusableElement.focus();\n      \x7d\n      document.addEventListener(\x27keydown\x27, handleKeyDown);\n    \x7d;\n\n    const closeWidget = () => \x7b\n      widgetContainer.classList.remove(\x27open\x27);\n      fab.setAttribute(\x27aria-expanded\x27, \x27false\x27);\n      menu.setAttribute(\x27aria-hidden\x27, \x27true\x27);\n      fab.focus();\n      document.removeEventListener(\x27keydown\x27, handleKeyDown);\n    \x7d;\n\n    const handleKeyDown = (e) => \x7b\n      if (e.key === \x27Escape\x27) \x7b\n        closeWidget();\n        return;\n      \x7d\n      \n      if (!focusableElements || focusableElements.length === 0) return;\n\n      if (e.key === \x27Tab\x27) \x7b\n        if (e.shiftKey) \x7b // Shift + Tab\n          if (document.activeElement === firstFocusableElement) \x7b\n            e.preventDefault();\n            lastFocusableElement.focus();\n          \x7d\n        \x7d else \x7b // Tab\n          if (document.activeElement === lastFocusableElement) \x7b\n            e.preventDefault();\n            firstFocusableElement.focus();\n          \x7d\n        \x7d\n      \x7d\n    \x7d;\n\n    fab.addEventListener(\x27click\x27, () => \x7b\n      const isOpen = widgetContainer.classList.contains(\x27open\x27);\n      if (isOpen) \x7b\n        closeWidget();\n      \x7d else \x7b\n        openWidget();\n      \x7d\n    \x7d);\n\n    closeButton.addEventListener(\x27click\x27, closeWidget);\n  \x7d);\n</script>"

def pulseAnimationCss : String := "\n  .scw-fab \x7b\n    animation: scw-pulse 2s infinite cubic-bezier(0.4, 0, 0.6, 1);\n  \x7d\n  @keyframes scw-pulse \x7b\n    0%, 100% \x7b transform: scale(1); \x7d\n    50% \x7b transform: scale(1.1); \x7d\n  \x7d"

def bounceAnimationCss : String := "\n  .scw-fab \x7b\n    animation: scw-bounce 1.5s infinite ease-in-out;\n  \x7d\n  @keyframes scw-bounce \x7b\n    0%, 100% \x7b transform: translateY(0); \x7d\n    50% \x7b transform: translateY(-15%); \x7d\n  \x7d"

def fadeAnimationCss : String := "\n  .scw-fab \x7b\n    animation: scw-fade 2.5s infinite linear;\n  \x7d\n  @keyframes scw-fade \x7b\n    0%, 100% \x7b opacity: 1; \x7d\n    50% \x7b opacity: 0.6; \x7d\n  \x7d"

def shakeAnimationCss : String := "\n  .scw-fab \x7b\n    animation: scw-shake 0.8s infinite ease-in-out;\n  \x7d\n  @keyframes scw-shake \x7b\n    0%, 100% \x7b transform: translateX(0); \x7d\n    10%, 30%, 50%, 70%, 90% \x7b transform: translateX(-5px); \x7d\n    20%, 40%, 60%, 80% \x7b transform: translateX(5px); \x7d\n  \x7d"

def htmlA1 : String := "\n<!-- Social Contact Widget Container -->\n<div class=\"scw-widget-container\" id=\"scw-widget\">\n  <!-- Widget Menu -->\n  <div class=\"scw-widget-menu\" role=\"dialog\" aria-modal=\"true\" aria-labelledby=\"scw-header-text\" aria-hidden=\"true\">\n    <div "

def htmlA2 : String := " style=\"background-color: "

def htmlF1 : String := "\n    </div>\n  </div>\n  <!-- Floating Action Button -->\n  <button "

def htmlF2 : String := " aria-label=\"Open contact menu\" aria-haspopup=\"dialog\" aria-expanded=\"false\">\n    <div class=\"scw-fab-icon-open\">\n      <svg xmlns=\"http://www.w3.org/2000/svg\" width=\"32\" height=\"32\" viewBox=\"0 0 24 24\" fill=\"none\" stroke=\""

/-! ## Generator (`CodeOutput`, `generateWidgetCode`) -/

/-- An entry of `PLATFORMS`: a platform id together with its display name. -/
structure PlatformInfo where
  id : Platform
  name : String
  deriving DecidableEq, Repr

/-- `PLATFORMS` from the constants module: the fixed canonical listing. -/
def PLATFORMS : List PlatformInfo :=
  [{ id := Platform.whatsapp, name := "WhatsApp" },
   { id := Platform.messenger, name := "Facebook Messenger" },
   { id := Platform.telegram, name := "Telegram" },
   { id := Platform.phone, name := "Phone Call" },
   { id := Platform.email, name := "Email / Contact Form" }]

/-- The ids of `PLATFORMS`, in order: the fixed canonical platform order. -/
def canonicalPlatformOrder : List Platform :=
  [Platform.whatsapp, Platform.messenger, Platform.telegram, Platform.phone, Platform.email]

/-- Per-platform fixed metadata record (`PLATFORM_DETAILS` entries). -/
structure PlatformDetails where
  placeholder : String
  label : String
  defaultColor : String
  helpText : String
  supportsPrefilledMessage : Bool
  cta : String
  deriving DecidableEq, Repr

/-- `PLATFORM_DETAILS` from the constants module. -/
def PLATFORM_DETAILS : Platform → PlatformDetails
  | Platform.whatsapp =>
    { placeholder := "e.g., 15551234567", label := "WhatsApp Number",
      defaultColor := "#25D366",
      helpText := "Country code + number, digits only (e.g., 15551234567).",
      supportsPrefilledMessage := true, cta := "Chat with us" }
  | Platform.messenger =>
    { placeholder := "e.g., Meta", label := "Facebook Page ID/Username",
      defaultColor := "#0084FF",
      helpText := "Your page\x27s unique username or ID.",
      supportsPrefilledMessage := false, cta := "Chat with us" }
  | Platform.telegram =>
    { placeholder := "e.g., mychannel", label := "Telegram Username",
      defaultColor := "#2AABEE",
      helpText := "Your public Telegram username (without @).",
      supportsPrefilledMessage := false, cta := "Chat with us" }
  | Platform.phone =>
    { placeholder := "e.g., 15551234567", label := "Phone Number",
      defaultColor := "#4CAF50",
      helpText := "Include country code for international calls.",
      supportsPrefilledMessage := false, cta := "Call us" }
  | Platform.email =>
    { placeholder := "e.g., hello@example.com or /contact",
      label := "Email Address / Contact URL", defaultColor := "#757575",
      helpText := "Your email address or a link to your contact page.",
      supportsPrefilledMessage := false, cta := "Email us" }

/-- Modelled from the spec: the module `components/icons/getIconSvgString`
is not included under `src/`.  Per the spec (§4.2 step 3) it yields a
built-in vector icon keyed by platform id, rendered in the given color;
the icon bodies themselves are not specified, so each platform gets a
distinct fixed glyph with the color interpolated. -/
def getIconSvgString (platform : Platform) (color : String) : String :=
  let glyph :=
    match platform with
    | Platform.whatsapp => "whatsapp"
    | Platform.messenger => "messenger"
    | Platform.telegram => "telegram"
    | Platform.phone => "phone"
    | Platform.email => "email"
  "<svg fill=\"" ++ color ++ "\" data-icon=\"" ++ glyph ++ "\"></svg>"

/-- JavaScript `x || d` for an optional string field: the fallback is
used when the field is absent or empty. -/
def truthyOr : Option String → String → String
  | Option.some s, d => if s = "" then d else s
  | Option.none, d => d

/-- `getAnimationCss` from `generateWidgetCode` (the `default` arm of the
source switch returns the empty string, reached only for `none`). -/
def getAnimationCss : ButtonAnimation → String
  | ButtonAnimation.pulse => pulseAnimationCss
  | ButtonAnimation.bounce => bounceAnimationCss
  | ButtonAnimation.fade => fadeAnimationCss
  | ButtonAnimation.shake => shakeAnimationCss
  | ButtonAnimation.none => ""

/-- The `spacingValues` lookup table. -/
def spacingValues : MenuSpacing → String
  | MenuSpacing.compact => "0.125rem"
  | MenuSpacing.default => "0.25rem"
  | MenuSpacing.relaxed => "0.5rem"

def fabBorderRadius (config : WidgetConfig) : String :=
  if config.widgetShape = WidgetShape.rounded then "50%" else "16px"

def platformIconBorderRadius (config : WidgetConfig) : String :=
  if config.widgetShape = WidgetShape.rounded then "50%" else "8px"

def positionStyles (config : WidgetConfig) : String :=
  if config.position = Position.bottomRight then "bottom: 2rem; right: 2rem;"
  else "bottom: 2rem; left: 2rem;"

def menuTransformOrigin (config : WidgetConfig) : String :=
  if config.position = Position.bottomRight then "bottom right" else "bottom left"

/-- `enabledPlatforms`: `PLATFORMS` filtered to the enabled ones. -/
def enabledPlatforms (config : WidgetConfig) : List PlatformInfo :=
  PLATFORMS.filter (fun p => (config.platforms p.id).enabled)

/-- One `<a>` entry of the platform list: the body of the `map` over
`enabledPlatforms` in the `html` template. -/
def platformItemHtml (config : WidgetConfig) (p : PlatformInfo) : String :=
  let platformConfig := config.platforms p.id
  let iconHtml := truthyOr platformConfig.customIconSvg (getIconSvgString p.id "#FFFFFF")
  let bgColor := truthyOr platformConfig.color (PLATFORM_DETAILS p.id).defaultColor
  itemA ++ getPlatformLink p.id (config.platforms p.id) ++ itemB ++ bgColor ++ itemC ++
    iconHtml ++ itemD ++ p.name ++ itemE ++ (PLATFORM_DETAILS p.id).cta ++ itemF

/-- The mapped platform entries, joined with `'\n      '` in `htmlOf`. -/
def platformListItems (config : WidgetConfig) : List String :=
  (enabledPlatforms config).map (platformItemHtml config)

/-- The `html` template of `generateWidgetCode`. -/
def htmlOf (config : WidgetConfig) : String :=
  htmlA ++ config.headerBgColor ++ htmlB ++ config.headerTextColor ++ htmlC ++
    config.headerText ++ htmlD ++ config.headerTextColor ++ htmlE ++
    String.intercalate "\n      " (platformListItems config) ++ htmlF ++
    config.mainIconColor ++ htmlG ++ config.mainIconColor ++ htmlH

/-- The `css` template of `generateWidgetCode`. -/
def cssOf (config : WidgetConfig) : String :=
  cssA ++ positionStyles config ++ cssB ++ menuTransformOrigin config ++ cssC ++
    (if config.position = Position.bottomRight then "right: 0;" else "left: 0;") ++
    cssD ++ spacingValues config.menuSpacing ++ cssE ++ platformIconBorderRadius config ++
    cssF ++ config.mainButtonColor ++ cssG ++ fabBorderRadius config ++ cssH ++
    getAnimationCss config.buttonAnimation ++ cssI

/-- `generateWidgetCode`: the three blocks between the fixed markers. -/
def generateWidgetCode (config : WidgetConfig) : String :=
  "<!-- Start Social Contact Widget -->\n" ++ htmlOf config ++ "\n" ++ cssOf config ++
    "\n" ++ jsBlock ++ "\n<!-- End Social Contact Widget -->"

/-! ## Claims C1, C8, C9 -/

/-- C1: the generator is deterministic — it is a pure function of the
configuration (no randomness, timestamps or counters appear in the
embedding, which covers every interpolation of the source templates), so
equal inputs give byte-identical outputs. -/
theorem generator_deterministic (c₁ c₂ : WidgetConfig) (h : c₁ = c₂) :
    generateWidgetCode c₁ = generateWidgetCode c₂ := by rw [h]

/-- C1 witness: the generator applied twice to the default configuration. -/
theorem generator_deterministic_witness :
    generateWidgetCode DEFAULT_CONFIG = generateWidgetCode DEFAULT_CONFIG :=
  generator_deterministic DEFAULT_CONFIG DEFAULT_CONFIG rfl

/-- Mapping ids past the filter over `PlatformInfo` entries. -/
theorem filter_map_enabled (cfg : WidgetConfig) (l : List PlatformInfo) :
    (l.filter (fun p => (cfg.platforms p.id).enabled)).map PlatformInfo.id =
      (l.map PlatformInfo.id).filter (fun q => (cfg.platforms q).enabled) := by
  induction l with
  | nil => rfl
  | cons x xs ih =>
    by_cases hx : (cfg.platforms x.id).enabled = true
    · simp [List.filter_cons, hx, ih]
    · simp [List.filter_cons, hx, ih]

/-- The enabled ids are the canonical order filtered by the enabled flag. -/
theorem enabledPlatforms_map_id (cfg : WidgetConfig) :
    (enabledPlatforms cfg).map PlatformInfo.id =
      canonicalPlatformOrder.filter (fun p => (cfg.platforms p).enabled) :=
  (filter_map_enabled cfg PLATFORMS).trans rfl

/-- C8: the output has exactly one platform entry per enabled platform
(none for a disabled one), in the canonical order whatsapp, messenger,
telegram, phone, email — the platform map itself is unordered (a function
in this embedding) — and with every platform disabled the entry list is
empty while the header and floating-button markup are still present. -/
theorem enabled_platform_entries (cfg : WidgetConfig) :
    platformListItems cfg = (enabledPlatforms cfg).map (platformItemHtml cfg) ∧
    (∀ p : Platform, ((enabledPlatforms cfg).map PlatformInfo.id).count p =
      if (cfg.platforms p).enabled then 1 else 0) ∧
    ((enabledPlatforms cfg).map PlatformInfo.id).Sublist canonicalPlatformOrder ∧
    ((∀ p : Platform, (cfg.platforms p).enabled = false) →
      platformListItems cfg = [] ∧
      (∃ a b, htmlOf cfg = a ++ "class=\"scw-header\"" ++ b) ∧
      (∃ a b, htmlOf cfg = a ++ "class=\"scw-fab\"" ++ b)) := by
  refine ⟨rfl, ?_, ?_, ?_⟩
  · intro p
    rw [enabledPlatforms_map_id]
    by_cases h : (cfg.platforms p).enabled = true
    · rw [if_pos h]
      have h' : (fun q => (cfg.platforms q).enabled) p = true := h
      generalize hg : (fun q => (cfg.platforms q).enabled) = g at h' ⊢
      rw [List.count_filter h']
      cases p <;> decide
    · rw [if_neg h, List.count_eq_zero.mpr]
      intro hmem
      rw [List.mem_filter] at hmem
      exact h hmem.2
  · rw [enabledPlatforms_map_id]
    exact (List.filter_sublist _)
  · intro hall
    have he : enabledPlatforms cfg = [] := by
      refine List.filter_eq_nil_iff.mpr ?_
      intro x _
      simp [hall]
    refine ⟨by simp [platformListItems, he], ?_, ?_⟩
    · refine ⟨htmlA1, htmlA2 ++ cfg.headerBgColor ++ htmlB ++ cfg.headerTextColor ++ htmlC ++
        cfg.headerText ++ htmlD ++ cfg.headerTextColor ++ htmlE ++
        String.intercalate "\n      " (platformListItems cfg) ++ htmlF ++
        cfg.mainIconColor ++ htmlG ++ cfg.mainIconColor ++ htmlH, ?_⟩
      have hsplit : htmlA = htmlA1 ++ "class=\"scw-header\"" ++ htmlA2 := rfl
      simp only [htmlOf, hsplit, String.append_assoc]
    · refine ⟨htmlA ++ cfg.headerBgColor ++ htmlB ++ cfg.headerTextColor ++ htmlC ++
        cfg.headerText ++ htmlD ++ cfg.headerTextColor ++ htmlE ++
        String.intercalate "\n      " (platformListItems cfg) ++ htmlF1,
        htmlF2 ++ cfg.mainIconColor ++ htmlG ++ cfg.mainIconColor ++ htmlH, ?_⟩
      have hsplit : htmlF = htmlF1 ++ "class=\"scw-fab\"" ++ htmlF2 := rfl
      simp only [htmlOf, hsplit, String.append_assoc]

/-- C8 witness: with every platform disabled the entry list is empty and
the floating-button markup is still emitted. -/
theorem enabled_platform_entries_witness :
    platformListItems
      { DEFAULT_CONFIG with
        platforms := fun p => { DEFAULT_CONFIG.platforms p with enabled := false } } = [] ∧
    (∃ a b, htmlOf
      { DEFAULT_CONFIG with
        platforms := fun p => { DEFAULT_CONFIG.platforms p with enabled := false } } =
      a ++ "class=\"scw-fab\"" ++ b) :=
  let cfg : WidgetConfig :=
    { DEFAULT_CONFIG with
      platforms := fun p => { DEFAULT_CONFIG.platforms p with enabled := false } }
  ⟨((enabled_platform_entries cfg).2.2.2 (fun _ => rfl)).1,
    ((enabled_platform_entries cfg).2.2.2 (fun _ => rfl)).2.2⟩

/-- C9: starting from a configuration with no button animation, switching
it to `pulse` leaves the HTML section unchanged and changes the CSS
section only by inserting the pulse animation block (its `.scw-fab` rule
and `@keyframes` definition) at the animation slot. -/
theorem pulse_animation_frame (cfg : WidgetConfig)
    (h : cfg.buttonAnimation = ButtonAnimation.none) :
    htmlOf { cfg with buttonAnimation := ButtonAnimation.pulse } = htmlOf cfg ∧
    ∃ p s, cssOf cfg = p ++ s ∧
      cssOf { cfg with buttonAnimation := ButtonAnimation.pulse } =
        p ++ getAnimationCss ButtonAnimation.pulse ++ s := by
  refine ⟨rfl,
    ⟨cssA ++ positionStyles cfg ++ cssB ++ menuTransformOrigin cfg ++ cssC ++
      (if cfg.position = Position.bottomRight then "right: 0;" else "left: 0;") ++
      cssD ++ spacingValues cfg.menuSpacing ++ cssE ++ platformIconBorderRadius cfg ++
      cssF ++ cfg.mainButtonColor ++ cssG ++ fabBorderRadius cfg ++ cssH, cssI, ?_, ?_⟩⟩
  · simp [cssOf, h, getAnimationCss]
  · rfl

/-- C9 witness: the frame property at the default configuration with the
animation turned off. -/
theorem pulse_animation_frame_witness :
    htmlOf { { DEFAULT_CONFIG with buttonAnimation := ButtonAnimation.none } with
        buttonAnimation := ButtonAnimation.pulse } =
      htmlOf { DEFAULT_CONFIG with buttonAnimation := ButtonAnimation.none } :=
  (pulse_animation_frame { DEFAULT_CONFIG with buttonAnimation := ButtonAnimation.none } rfl).1
